import Mathlib

/-!
Verification of the `MathematicalFrog` pipeline-accuracy analyzer
(`src/Analysis.py`).

The analytical core of the program is embedded shallowly: Python floats are
modelled as exact rationals (`ℚ`), Python ints as `ℤ`, and the `**` operator
between a float and an int as `zpow` (`ℚ ^ ℤ`).  A Python function that can
raise becomes a function into `Except AnalysisError _`; a function whose body
contains no `raise` stays a plain function.
-/

/-- The two distinct `ValueError`s raised by
`AgenticPipelineAnalyzer.calculate_system_accuracy`:
`invalidAccuracy` corresponds to the message
"Agent accuracy must be between 0 and 1 (inclusive)" and
`invalidChainLength` to "Number of agents must be positive". -/
inductive AnalysisError where
  | invalidAccuracy
  | invalidChainLength
deriving DecidableEq, Repr

/-- `AgenticPipelineAnalyzer.calculate_system_accuracy` (src/Analysis.py:13-19):
validates `0 < agent_accuracy <= 1` first, then `num_agents > 0`, then returns
`agent_accuracy ** num_agents`. -/
def calculate_system_accuracy (agent_accuracy : ℚ) (num_agents : ℤ) :
    Except AnalysisError ℚ :=
  if ¬ (0 < agent_accuracy ∧ agent_accuracy ≤ 1) then
    .error .invalidAccuracy
  else if num_agents ≤ 0 then
    .error .invalidChainLength
  else
    .ok (agent_accuracy ^ num_agents)

/-- `AgenticPipelineAnalyzer.calculate_derivative` (src/Analysis.py:21-22):
`num_agents * (agent_accuracy ** (num_agents - 1))`, with no validation of
either argument.  (In Python the only reachable failure is a
`ZeroDivisionError` when `agent_accuracy = 0` and `num_agents ≤ 0`; `ℚ`'s
`zpow` returns `0` there.) -/
def calculate_derivative (agent_accuracy : ℚ) (num_agents : ℤ) : ℚ :=
  num_agents * agent_accuracy ^ (num_agents - 1)

/-- The dict returned by `calculate_improvement_gain` (src/Analysis.py:36-44). -/
structure ImprovementGainReport where
  base_system_accuracy : ℚ
  improved_system_accuracy : ℚ
  absolute_gain : ℚ
  relative_gain_percent : ℚ
  multiplicative_ratio : ℚ
  theoretical_gain_approx : ℚ
  delta_p : ℚ
deriving DecidableEq, Repr

/-- `AgenticPipelineAnalyzer.calculate_improvement_gain` (src/Analysis.py:24-44):
computes `delta_p`, then calls `calculate_system_accuracy` on the base and the
improved accuracy (in that order; either call's exception propagates), then the
derived metrics. -/
def calculate_improvement_gain (base_accuracy improved_accuracy : ℚ)
    (num_agents : ℤ) : Except AnalysisError ImprovementGainReport :=
  let delta_p := improved_accuracy - base_accuracy
  match calculate_system_accuracy base_accuracy num_agents with
  | .error e => .error e
  | .ok base_system_acc =>
    match calculate_system_accuracy improved_accuracy num_agents with
    | .error e => .error e
    | .ok improved_system_acc =>
      let absolute_gain := improved_system_acc - base_system_acc
      let relative_gain := (absolute_gain / base_system_acc) * 100
      let multiplicative_ratio := improved_system_acc / base_system_acc
      let theoretical_gain :=
        num_agents * base_accuracy ^ (num_agents - 1) * delta_p
      .ok {
        base_system_accuracy := base_system_acc
        improved_system_accuracy := improved_system_acc
        absolute_gain := absolute_gain
        relative_gain_percent := relative_gain
        multiplicative_ratio := multiplicative_ratio
        theoretical_gain_approx := theoretical_gain
        delta_p := delta_p
      }

/-- `FeedbackMechanism.verification_feedback` (src/Analysis.py:162-164):
`base_accuracy + (1 - base_accuracy) * verification_accuracy`; no validation. -/
def verification_feedback (base_accuracy verification_accuracy : ℚ) : ℚ :=
  base_accuracy + (1 - base_accuracy) * verification_accuracy

/-- `FeedbackMechanism.retry_feedback` (src/Analysis.py:166-168):
`1 - (1 - base_accuracy) ** num_retries`; no validation. -/
def retry_feedback (base_accuracy : ℚ) (num_retries : ℤ) : ℚ :=
  1 - (1 - base_accuracy) ^ num_retries

/-- `FeedbackMechanism.self_checking_feedback` (src/Analysis.py:170-172):
`base_accuracy + (1 - base_accuracy) * check_accuracy * 0.8`; no validation. -/
def self_checking_feedback (base_accuracy check_accuracy : ℚ) : ℚ :=
  base_accuracy + (1 - base_accuracy) * check_accuracy * 0.8

/-- The analyzer object: `__init__` (src/Analysis.py:10-11) stores an empty
`results` dict; no core computation method ever reads or writes it. -/
structure AgenticPipelineAnalyzer where
  results : List (String × ℚ)
deriving DecidableEq, Repr

/-- `AgenticPipelineAnalyzer.__init__`: `self.results = {}`. -/
def AgenticPipelineAnalyzer.init : AgenticPipelineAnalyzer :=
  { results := [] }

/-- One call to a core operation, with its arguments. -/
inductive CoreOp where
  | sysAcc (p : ℚ) (n : ℤ)
  | deriv (p : ℚ) (n : ℤ)
  | gain (base improved : ℚ) (n : ℤ)
  | verif (base v : ℚ)
  | retry (base : ℚ) (k : ℤ)
  | selfCheck (base c : ℚ)

/-- The possible return values of a core operation. -/
inductive CoreOpResult where
  | acc (r : Except AnalysisError ℚ)
  | num (q : ℚ)
  | report (r : Except AnalysisError ImprovementGainReport)

/-- Method dispatch on the analyzer state: runs one core operation and returns
its result together with the post-call object state.  Each method body in the
source mentions `self` only to call sibling methods, never `self.results`, so
the state after the call is the state before it. -/
def runCoreOp (self : AgenticPipelineAnalyzer) :
    CoreOp → CoreOpResult × AgenticPipelineAnalyzer
  | .sysAcc p n => (.acc (calculate_system_accuracy p n), self)
  | .deriv p n => (.num (calculate_derivative p n), self)
  | .gain b i n => (.report (calculate_improvement_gain b i n), self)
  | .verif b v => (.num (verification_feedback b v), self)
  | .retry b k => (.num (retry_feedback b k), self)
  | .selfCheck b c => (.num (self_checking_feedback b c), self)

/-- Extracts `relative_gain_percent` from a gain computation, `0` on error. -/
def relPercent (r : Except AnalysisError ImprovementGainReport) : ℚ :=
  match r with
  | .ok rep => rep.relative_gain_percent
  | .error _ => 0

/-- A `zpow` with a nonnegative integer exponent is the corresponding `ℕ` power. -/
lemma zpow_nonneg_eq_pow_toNat (p : ℚ) (n : ℤ) (hn : 0 ≤ n) :
    p ^ n = p ^ n.toNat := by
  conv_lhs => rw [← Int.toNat_of_nonneg hn]
  exact zpow_natCast p n.toNat

/-- On valid inputs, `calculate_system_accuracy` passes both guards and
returns `p ^ n`. -/
lemma system_accuracy_ok (p : ℚ) (n : ℤ) (h0 : 0 < p) (h1 : p ≤ 1)
    (hn : 1 ≤ n) : calculate_system_accuracy p n = .ok (p ^ n) := by
  unfold calculate_system_accuracy
  rw [if_neg (not_not_intro ⟨h0, h1⟩), if_neg (by omega)]

/-- An accuracy outside `(0, 1]` trips the first guard, for every chain
length. -/
lemma system_accuracy_invalid (q : ℚ) (hq : q ≤ 0 ∨ 1 < q) (m : ℤ) :
    calculate_system_accuracy q m = .error .invalidAccuracy := by
  unfold calculate_system_accuracy
  rw [if_pos]
  rintro ⟨hq0, hq1⟩
  rcases hq with h | h
  · exact absurd hq0 (not_lt.mpr h)
  · exact absurd hq1 (not_le.mpr h)

/-- On valid inputs, `calculate_improvement_gain` returns the fully evaluated
report. -/
lemma improvement_gain_ok (b i : ℚ) (n : ℤ) (hb0 : 0 < b) (hb1 : b ≤ 1)
    (hi0 : 0 < i) (hi1 : i ≤ 1) (hn : 1 ≤ n) :
    calculate_improvement_gain b i n = .ok {
      base_system_accuracy := b ^ n
      improved_system_accuracy := i ^ n
      absolute_gain := i ^ n - b ^ n
      relative_gain_percent := (i ^ n - b ^ n) / b ^ n * 100
      multiplicative_ratio := i ^ n / b ^ n
      theoretical_gain_approx := n * b ^ (n - 1) * (i - b)
      delta_p := i - b } := by
  unfold calculate_improvement_gain
  rw [system_accuracy_ok b n hb0 hb1 hn, system_accuracy_ok i n hi0 hi1 hn]

/-- C1: for every agent accuracy `p` with `0 < p ≤ 1` and chain length
`n ≥ 1`, `systemAccuracy(p, n)` returns exactly `p ^ n`; in particular
`systemAccuracy(1, n) = 1` and `systemAccuracy(p, 1) = p`. -/
theorem systemAccuracy_eq_pow (p : ℚ) (n : ℤ) (hp0 : 0 < p) (hp1 : p ≤ 1)
    (hn : 1 ≤ n) :
    calculate_system_accuracy p n = .ok (p ^ n) ∧
    calculate_system_accuracy 1 n = .ok 1 ∧
    calculate_system_accuracy p 1 = .ok p := by
  refine ⟨system_accuracy_ok p n hp0 hp1 hn, ?_, ?_⟩
  · rw [system_accuracy_ok 1 n one_pos le_rfl hn, one_zpow]
  · rw [system_accuracy_ok p 1 hp0 hp1 le_rfl, zpow_one]

/-- Witness for C1 at `p = 1/2`, `n = 3`. -/
theorem systemAccuracy_eq_pow_witness :
    calculate_system_accuracy (1/2) 3 = .ok ((1/2 : ℚ) ^ (3 : ℤ)) ∧
    calculate_system_accuracy 1 3 = .ok 1 ∧
    calculate_system_accuracy (1/2) 1 = .ok (1/2) :=
  systemAccuracy_eq_pow (1/2) 3 (by norm_num) (by norm_num) (by norm_num)

/-- C2: `systemAccuracy` is strictly decreasing in the chain length for a
fixed accuracy strictly inside `(0, 1)`, and strictly increasing in the
accuracy for a fixed chain length. -/
theorem systemAccuracy_strict_mono (p p₁ p₂ : ℚ) (n : ℤ)
    (hp0 : 0 < p) (hp1 : p < 1) (hn : 1 ≤ n)
    (h10 : 0 < p₁) (h12 : p₁ < p₂) (h21 : p₂ ≤ 1) :
    (∃ a b, calculate_system_accuracy p (n + 1) = .ok a ∧
      calculate_system_accuracy p n = .ok b ∧ a < b) ∧
    (∃ c d, calculate_system_accuracy p₁ n = .ok c ∧
      calculate_system_accuracy p₂ n = .ok d ∧ c < d) := by
  constructor
  · refine ⟨p ^ (n + 1), p ^ n, system_accuracy_ok _ _ hp0 hp1.le (by omega),
      system_accuracy_ok _ _ hp0 hp1.le hn, ?_⟩
    rw [zpow_nonneg_eq_pow_toNat p (n + 1) (by omega),
      zpow_nonneg_eq_pow_toNat p n (by omega)]
    exact pow_lt_pow_right_of_lt_one₀ hp0 hp1 (by omega)
  · refine ⟨p₁ ^ n, p₂ ^ n,
      system_accuracy_ok _ _ h10 (h12.le.trans h21) hn,
      system_accuracy_ok _ _ (h10.trans h12) h21 hn, ?_⟩
    rw [zpow_nonneg_eq_pow_toNat p₁ n (by omega),
      zpow_nonneg_eq_pow_toNat p₂ n (by omega)]
    exact pow_lt_pow_left₀ h12 h10.le (by omega)

/-- Witness for C2 at `p = 1/2`, `p₁ = 1/3`, `p₂ = 2/3`, `n = 2`. -/
theorem systemAccuracy_strict_mono_witness :
    ((∃ a b, calculate_system_accuracy (1/2) (2 + 1) = .ok a ∧
      calculate_system_accuracy (1/2) 2 = .ok b ∧ a < b) ∧
    (∃ c d, calculate_system_accuracy (1/3) 2 = .ok c ∧
      calculate_system_accuracy (2/3) 2 = .ok d ∧ c < d)) :=
  systemAccuracy_strict_mono (1/2) (1/3) (2/3) 2 (by norm_num) (by norm_num)
    (by norm_num) (by norm_num) (by norm_num) (by norm_num)

/-- C3 counterexample: `improvementGain(0.90, 0.95, 5).relativeGainPercent`
is more than `0.04` above `30.99` (its exact value is
`58653100/1889568 ≈ 31.0405`), so it is not approximately `30.99`. -/
theorem improvementGain_relPercent_not_3099 :
    3099/100 + 1/25 < relPercent (calculate_improvement_gain 0.90 0.95 5) := by
  norm_num [relPercent, calculate_improvement_gain, calculate_system_accuracy]

/-- C3 (amended): on valid inputs the report's fields satisfy the stated
equations exactly, and `improvementGain(0.90, 0.95, 5).relativeGainPercent`
is approximately `31.04` (within `0.01`). -/
theorem improvementGain_fields (b i : ℚ) (n : ℤ) (hb0 : 0 < b)
    (hb1 : b ≤ 1) (hi0 : 0 < i) (hi1 : i ≤ 1) (hn : 1 ≤ n) :
    (∃ r, calculate_improvement_gain b i n = .ok r ∧
      r.delta_p = i - b ∧
      r.base_system_accuracy = b ^ n ∧
      r.improved_system_accuracy = i ^ n ∧
      r.absolute_gain = r.improved_system_accuracy - r.base_system_accuracy ∧
      r.relative_gain_percent =
        r.absolute_gain / r.base_system_accuracy * 100 ∧
      r.multiplicative_ratio =
        r.improved_system_accuracy / r.base_system_accuracy ∧
      r.theoretical_gain_approx = n * b ^ (n - 1) * r.delta_p) ∧
    3104/100 - 1/100 < relPercent (calculate_improvement_gain 0.90 0.95 5) ∧
    relPercent (calculate_improvement_gain 0.90 0.95 5) < 3104/100 + 1/100 := by
  refine ⟨⟨_, improvement_gain_ok b i n hb0 hb1 hi0 hi1 hn,
    rfl, rfl, rfl, rfl, rfl, rfl, rfl⟩, ?_, ?_⟩ <;>
    norm_num [relPercent, calculate_improvement_gain, calculate_system_accuracy]

/-- Witness for C3 (amended) at `b = 9/10`, `i = 19/20`, `n = 5`. -/
theorem improvementGain_fields_witness :
    ((∃ r, calculate_improvement_gain (9/10) (19/20) 5 = .ok r ∧
      r.delta_p = 19/20 - 9/10 ∧
      r.base_system_accuracy = (9/10 : ℚ) ^ (5 : ℤ) ∧
      r.improved_system_accuracy = (19/20 : ℚ) ^ (5 : ℤ) ∧
      r.absolute_gain = r.improved_system_accuracy - r.base_system_accuracy ∧
      r.relative_gain_percent =
        r.absolute_gain / r.base_system_accuracy * 100 ∧
      r.multiplicative_ratio =
        r.improved_system_accuracy / r.base_system_accuracy ∧
      r.theoretical_gain_approx =
        (5 : ℤ) * (9/10 : ℚ) ^ ((5 : ℤ) - 1) * r.delta_p) ∧
    3104/100 - 1/100 < relPercent (calculate_improvement_gain 0.90 0.95 5) ∧
    relPercent (calculate_improvement_gain 0.90 0.95 5) < 3104/100 + 1/100) :=
  improvementGain_fields (9/10) (19/20) 5 (by norm_num) (by norm_num)
    (by norm_num) (by norm_num) (by norm_num)

/-- C5 counterexample: when both arguments are invalid the accuracy guard
fires first, so `systemAccuracy(0, 0)` fails with `invalidAccuracy` even
though its chain-length argument is `< 1`. -/
theorem systemAccuracy_zero_zero_accuracy_error :
    calculate_system_accuracy 0 0 = .error .invalidAccuracy ∧
    calculate_system_accuracy 0 0 ≠ .error .invalidChainLength := by
  constructor <;> simp [calculate_system_accuracy]

/-- C5 (amended): `systemAccuracy` fails with `invalidAccuracy` whenever the
accuracy is `≤ 0` or `> 1` (for every chain length, the accuracy being
checked first), and with `invalidChainLength` whenever the chain length is
`< 1` and the accuracy is valid; in particular `systemAccuracy(0, n)` and
`systemAccuracy(1.5, n)` fail with `invalidAccuracy` and
`systemAccuracy(p, 0)` fails with `invalidChainLength` for valid `p`. -/
theorem systemAccuracy_error_kinds (p : ℚ) (n : ℤ)
    (hp0 : 0 < p) (hp1 : p ≤ 1) (hn : n < 1) :
    calculate_system_accuracy p n = .error .invalidChainLength ∧
    (∀ q : ℚ, q ≤ 0 ∨ 1 < q → ∀ m : ℤ,
      calculate_system_accuracy q m = .error .invalidAccuracy) ∧
    calculate_system_accuracy 0 n = .error .invalidAccuracy ∧
    calculate_system_accuracy (3/2) n = .error .invalidAccuracy ∧
    calculate_system_accuracy p 0 = .error .invalidChainLength := by
  have herr : ∀ m : ℤ, m ≤ 0 →
      calculate_system_accuracy p m = .error .invalidChainLength := by
    intro m hm
    unfold calculate_system_accuracy
    rw [if_neg (not_not_intro ⟨hp0, hp1⟩), if_pos hm]
  exact ⟨herr n (by omega),
    fun q hq m => system_accuracy_invalid q hq m,
    system_accuracy_invalid 0 (.inl le_rfl) n,
    system_accuracy_invalid (3/2) (.inr (by norm_num)) n,
    herr 0 le_rfl⟩

/-- Witness for C5 (amended) at `p = 1/2`, `n = 0`. -/
theorem systemAccuracy_error_kinds_witness :
    (calculate_system_accuracy (1/2) 0 = .error .invalidChainLength ∧
    (∀ q : ℚ, q ≤ 0 ∨ 1 < q → ∀ m : ℤ,
      calculate_system_accuracy q m = .error .invalidAccuracy) ∧
    calculate_system_accuracy 0 0 = .error .invalidAccuracy ∧
    calculate_system_accuracy (3/2) 0 = .error .invalidAccuracy ∧
    calculate_system_accuracy (1/2) 0 = .error .invalidChainLength) :=
  systemAccuracy_error_kinds (1/2) 0 (by norm_num) (by norm_num) (by norm_num)

/-- C6 counterexample: `derivative` performs no validation — it returns
`n * p^(n-1)` without error at `p = 1.5` (where the claim demands an
`InvalidAccuracy` failure) and at `n = 0` (where the claim demands an
`InvalidChainLength` failure). -/
theorem derivative_accepts_invalid_inputs :
    calculate_derivative (3/2) 5 = 405/16 ∧
    calculate_derivative (1/2) 0 = 0 := by
  constructor <;> norm_num [calculate_derivative]

/-- C6 (amended): `derivative(p, n)` computes `n * p^(n-1)` but performs no
input validation, unlike `systemAccuracy`, which rejects the same accuracy
argument with `invalidAccuracy` whenever it lies outside `(0, 1]`. -/
theorem derivative_no_validation (p : ℚ) (n : ℤ) :
    calculate_derivative p n = n * p ^ (n - 1) ∧
    (p ≤ 0 ∨ 1 < p →
      calculate_system_accuracy p n = .error .invalidAccuracy) := by
  exact ⟨rfl, fun h => system_accuracy_invalid p h n⟩

/-- Witness for C6 (amended) at `p = 3/2`, `n = 5`. -/
theorem derivative_no_validation_witness :
    (calculate_derivative (3/2) 5 = (5 : ℤ) * (3/2 : ℚ) ^ ((5 : ℤ) - 1) ∧
    calculate_system_accuracy (3/2) 5 = .error .invalidAccuracy) :=
  ⟨(derivative_no_validation (3/2) 5).1,
    (derivative_no_validation (3/2) 5).2 (.inr (by norm_num))⟩

/-- C4: for a base accuracy in `(0, 1]` and mechanism parameters in their
documented ranges, each feedback transform returns a value in `[base, 1]`,
hence in `(0, 1]`. -/
theorem feedback_closure (b v c : ℚ) (k : ℤ)
    (hb0 : 0 < b) (hb1 : b ≤ 1) (hv0 : 0 ≤ v) (hv1 : v ≤ 1)
    (hk : 1 ≤ k) (hc0 : 0 ≤ c) (hc1 : c ≤ 1) :
    (b ≤ verification_feedback b v ∧ verification_feedback b v ≤ 1 ∧
      0 < verification_feedback b v) ∧
    (b ≤ retry_feedback b k ∧ retry_feedback b k ≤ 1 ∧
      0 < retry_feedback b k) ∧
    (b ≤ self_checking_feedback b c ∧ self_checking_feedback b c ≤ 1 ∧
      0 < self_checking_feedback b c) := by
  have hvle : (1 - b) * v ≤ 1 - b :=
    mul_le_of_le_one_right (by linarith) hv1
  have hvge : 0 ≤ (1 - b) * v := mul_nonneg (by linarith) hv0
  have hretry : b ≤ retry_feedback b k ∧ retry_feedback b k ≤ 1 := by
    unfold retry_feedback
    rw [zpow_nonneg_eq_pow_toNat (1 - b) k (by omega)]
    have hle : (1 - b) ^ k.toNat ≤ (1 - b) ^ 1 :=
      pow_le_pow_of_le_one (by linarith) (by linarith) (by omega)
    have hge : 0 ≤ (1 - b) ^ k.toNat := pow_nonneg (by linarith) _
    rw [pow_one] at hle
    constructor <;> linarith
  have hcle : (1 - b) * c * 0.8 ≤ 1 - b := by
    nlinarith [mul_nonneg (show (0:ℚ) ≤ 1 - b by linarith)
      (show (0:ℚ) ≤ 1 - c by linarith),
      mul_nonneg (show (0:ℚ) ≤ 1 - b by linarith) hc0]
  have hcge : 0 ≤ (1 - b) * c * 0.8 :=
    mul_nonneg (mul_nonneg (by linarith) hc0) (by norm_num)
  refine ⟨⟨?_, ?_, ?_⟩, ⟨hretry.1, hretry.2, by linarith [hretry.1]⟩,
    ⟨?_, ?_, ?_⟩⟩ <;>
    simp only [verification_feedback, self_checking_feedback] <;> linarith

/-- Witness for C4 at `b = 9/10`, `v = 19/20`, `k = 2`, `c = 9/10`. -/
theorem feedback_closure_witness :
    ((9/10 ≤ verification_feedback (9/10) (19/20) ∧
      verification_feedback (9/10) (19/20) ≤ 1 ∧
      0 < verification_feedback (9/10) (19/20)) ∧
    (9/10 ≤ retry_feedback (9/10) 2 ∧ retry_feedback (9/10) 2 ≤ 1 ∧
      0 < retry_feedback (9/10) 2) ∧
    (9/10 ≤ self_checking_feedback (9/10) (9/10) ∧
      self_checking_feedback (9/10) (9/10) ≤ 1 ∧
      0 < self_checking_feedback (9/10) (9/10))) :=
  feedback_closure (9/10) (19/20) (9/10) 2 (by norm_num) (by norm_num)
    (by norm_num) (by norm_num) (by norm_num) (by norm_num) (by norm_num)

/-- C7: the feedback transforms validate nothing: with out-of-range
parameters they return, without error, values outside `(0, 1]` — zero
retries yield `0`, and a verification accuracy of `2` yields `1.1 > 1`. -/
theorem feedback_no_parameter_validation :
    retry_feedback (9/10) 0 = 0 ∧
    ¬ (0 < retry_feedback (9/10) 0 ∧ retry_feedback (9/10) 0 ≤ 1) ∧
    verification_feedback (9/10) 2 = 11/10 ∧
    1 < verification_feedback (9/10) 2 := by
  norm_num [retry_feedback, verification_feedback]

/-- C8: the concrete feedback values of the spec's scenarios 3-5:
`retryFeedback(0.90, 2) = 1 - 0.1^2 = 0.99`,
`verificationFeedback(0.90, 0.95) = 0.90 + 0.10*0.95 = 0.995`, and
`selfCheckingFeedback(0.90, 0.90) = 0.90 + 0.10*0.90*0.8 = 0.972`. -/
theorem feedback_concrete_values :
    retry_feedback 0.90 2 = 1 - (0.1 : ℚ) ^ (2 : ℤ) ∧
    retry_feedback 0.90 2 = 99/100 ∧
    verification_feedback 0.90 0.95 = 0.90 + 0.10 * 0.95 ∧
    verification_feedback 0.90 0.95 = 995/1000 ∧
    self_checking_feedback 0.90 0.90 = 0.90 + 0.10 * 0.90 * 0.8 ∧
    self_checking_feedback 0.90 0.90 = 972/1000 := by
  norm_num [retry_feedback, verification_feedback, self_checking_feedback]

/-- C9: every core operation is deterministic and side-effect-free: its
result does not depend on the analyzer state, no call changes the analyzer
state, and after any sequence of core calls starting from a freshly
constructed analyzer the `results` dict is still empty. -/
theorem core_ops_pure (ops : List CoreOp) (a a' : AgenticPipelineAnalyzer)
    (op : CoreOp) :
    (runCoreOp a op).1 = (runCoreOp a' op).1 ∧
    (runCoreOp a op).2 = a ∧
    (ops.foldl (fun s o => (runCoreOp s o).2)
      AgenticPipelineAnalyzer.init).results = [] := by
  have hstep : ∀ (s : AgenticPipelineAnalyzer) (o : CoreOp),
      (runCoreOp s o).2 = s := by
    intro s o; cases o <;> rfl
  have hfold : ∀ (l : List CoreOp) (s : AgenticPipelineAnalyzer),
      l.foldl (fun s o => (runCoreOp s o).2) s = s := by
    intro l
    induction l with
    | nil => intro s; rfl
    | cons o t ih => intro s; rw [List.foldl_cons, hstep]; exact ih s
  refine ⟨?_, hstep a op, by rw [hfold]; rfl⟩
  cases op <;> rfl

/-- C10: `improvementGain` accepts a strictly worse improved accuracy: the
call succeeds and reports a negative `delta_p`, a negative `absolute_gain`,
a negative `relative_gain_percent`, and a `multiplicative_ratio` below 1. -/
theorem improvementGain_negative_delta (b i : ℚ) (n : ℤ)
    (hi0 : 0 < i) (hib : i < b) (hb1 : b ≤ 1) (hn : 1 ≤ n) :
    ∃ r, calculate_improvement_gain b i n = .ok r ∧
      r.delta_p < 0 ∧ r.absolute_gain < 0 ∧
      r.relative_gain_percent < 0 ∧ r.multiplicative_ratio < 1 := by
  refine ⟨_, improvement_gain_ok b i n (hi0.trans hib) hb1 hi0
    (hib.le.trans hb1) hn, ?_, ?_, ?_, ?_⟩
  · exact sub_neg.mpr hib
  · show i ^ n - b ^ n < 0
    refine sub_neg.mpr ?_
    rw [zpow_nonneg_eq_pow_toNat i n (by omega),
      zpow_nonneg_eq_pow_toNat b n (by omega)]
    exact pow_lt_pow_left₀ hib hi0.le (by omega)
  · show (i ^ n - b ^ n) / b ^ n * 100 < 0
    have hlt : i ^ n < b ^ n := by
      rw [zpow_nonneg_eq_pow_toNat i n (by omega),
        zpow_nonneg_eq_pow_toNat b n (by omega)]
      exact pow_lt_pow_left₀ hib hi0.le (by omega)
    have hbpos : (0:ℚ) < b ^ n := zpow_pos (hi0.trans hib) n
    exact mul_neg_of_neg_of_pos
      (div_neg_of_neg_of_pos (sub_neg.mpr hlt) hbpos) (by norm_num)
  · show i ^ n / b ^ n < 1
    have hlt : i ^ n < b ^ n := by
      rw [zpow_nonneg_eq_pow_toNat i n (by omega),
        zpow_nonneg_eq_pow_toNat b n (by omega)]
      exact pow_lt_pow_left₀ hib hi0.le (by omega)
    exact (div_lt_one (zpow_pos (hi0.trans hib) n)).mpr hlt

/-- Witness for C10 at `b = 9/10`, `i = 1/2`, `n = 2`. -/
theorem improvementGain_negative_delta_witness :
    (∃ r, calculate_improvement_gain (9/10) (1/2) 2 = .ok r ∧
      r.delta_p < 0 ∧ r.absolute_gain < 0 ∧
      r.relative_gain_percent < 0 ∧ r.multiplicative_ratio < 1) :=
  improvementGain_negative_delta (9/10) (1/2) 2 (by norm_num) (by norm_num)
    (by norm_num) (by norm_num)
